import Mathlib

/-!
Verification development for the Sentient Playground job lifecycle and
event-sequencing engine.

The repository snapshot contains the README (which documents the HTTP and
WebSocket interfaces of the FastAPI backend in `agent-service/`), the build
script, the Next.js configuration and a few Next.js pages.  The backend
source itself (`agent-service/main.py`, `agents/educational_router.py`) —
the Job Registry, Event Channel, Workflow Engine and Mode Selector — is not
part of the snapshot, so those components are modelled from the spec
(`spec.md` §3–§7) and from the README's interface documentation, as noted on
each definition.  The playground page (`web/app/page.tsx`) is embedded
directly from its source.
-/

set_option autoImplicit false

namespace SentientPlayground

/-- Event types of the workflow stream (spec §6; README "Event Types" list),
plus the failure event that closes a failed run (spec §4.3, §7). -/
inductive EventType where
  | ROUTED
  | CLASSIFIED
  | WORKFLOW_PLANNED
  | TASK_ASSIGNED
  | TASK_UPDATE
  | TASK_DONE
  | COMPOSE_START
  | COMPOSE_DONE
  | FINAL
  | COMPLETE
  | FAILURE
  deriving DecidableEq, Repr

/-- Job mode (spec §3, §4.4): live when a usable credential was supplied,
demo otherwise. -/
inductive Mode where
  | live
  | demo
  deriving DecidableEq, Repr

/-- Job status (spec §3): monotonic over pending < running < terminal. -/
inductive Status where
  | pending
  | running
  | complete
  | failed
  deriving DecidableEq, Repr

/-- A status is terminal when the job has finished, successfully or not. -/
def Status.isTerminal : Status → Bool
  | .complete => true
  | .failed => true
  | _ => false

/-- Rank of a status in the monotonic order pending < running < terminal
(spec §3: `complete` and `failed` are both terminal). -/
def statusRank : Status → Nat
  | .pending => 0
  | .running => 1
  | .complete => 2
  | .failed => 2

/-- An emitted workflow event (spec §3: type, human-readable detail,
emission timestamp, back-reference to the owning job). -/
structure Event where
  type : EventType
  detail : String
  timestamp : Nat
  jobId : Nat
  deriving DecidableEq, Repr

/-- A tracked job (spec §3). -/
structure Job where
  id : Nat
  prompt : String
  mode : Mode
  status : Status
  createdAt : Nat
  deriving DecidableEq, Repr

/-- Optional provider credentials supplied with the entry call
(README `POST /api/ask` headers: X-OpenAI-Key, X-Anthropic-Key,
X-Fireworks-Key). -/
structure Credentials where
  openaiKey : Option String
  anthropicKey : Option String
  fireworksKey : Option String
  deriving DecidableEq, Repr

/-- A supplied credential is usable when it is present and nonempty. -/
def usableKey : Option String → Bool
  | none => false
  | some k => !k.isEmpty

/-- Whether at least one usable credential is present. -/
def Credentials.anyUsable (c : Credentials) : Bool :=
  usableKey c.openaiKey || usableKey c.anthropicKey || usableKey c.fireworksKey

/-- Modelled from the spec: the Mode Selector (§4.4) of the missing
`agent-service` backend; the README (line 159) documents the same rule:
if API keys are provided the system uses real-time LLM mode, otherwise it
falls back to educational demo mode. -/
def selectMode (c : Credentials) : Mode :=
  if c.anyUsable then Mode.live else Mode.demo

/-- Errors of the Job Registry (spec §4.1, §7). -/
inductive RegError where
  | InvalidInput
  | NotFound
  deriving DecidableEq, Repr

/-- Configured maximum prompt length (spec §4.1: "a configured maximum
length"; the concrete bound is a deployment constant). -/
def maxPromptLen : Nat := 4000

/-- Modelled from the spec: the Job Registry store (§4.1) of the missing
`agent-service` backend — jobs keyed by identifier plus a fresh-id
counter. -/
structure Registry where
  jobs : List (Nat × Job)
  nextId : Nat
  deriving DecidableEq, Repr

/-- The empty registry at process start. -/
def Registry.init : Registry := { jobs := [], nextId := 0 }

/-- Modelled from the spec: `create(prompt, credentials)` (§4.1) of the
missing backend — fails with `InvalidInput` if the prompt is empty or
exceeds the configured maximum length; otherwise allocates a fresh id,
fixes the mode via the Mode Selector, stores the job with status
`pending` and returns it. -/
def Registry.create (r : Registry) (prompt : String) (c : Credentials)
    (now : Nat) : Except RegError (Registry × Job) :=
  if prompt.length = 0 ∨ maxPromptLen < prompt.length then
    .error .InvalidInput
  else
    let j : Job :=
      { id := r.nextId, prompt := prompt, mode := selectMode c,
        status := .pending, createdAt := now }
    .ok ({ jobs := (r.nextId, j) :: r.jobs, nextId := r.nextId + 1 }, j)

/-- Modelled from the spec: the entry call (§6) of the missing backend —
on validation failure the registry is left untouched and the error is
surfaced synchronously. -/
def entryCall (r : Registry) (prompt : String) (c : Credentials)
    (now : Nat) : Registry × Except RegError Job :=
  match r.create prompt c now with
  | .error e => (r, .error e)
  | .ok (r', j) => (r', .ok j)

/-- Modelled from the spec: `markRunning(id)` (§4.1) at the job level —
a no-op-with-warning (second component true) on an already-terminal job. -/
def Job.markRunning (j : Job) : Job × Bool :=
  if j.status.isTerminal then (j, true)
  else ({ j with status := .running }, false)

/-- Modelled from the spec: `markComplete(id)` (§4.1) at the job level —
a no-op-with-warning on an already-terminal job. -/
def Job.markComplete (j : Job) : Job × Bool :=
  if j.status.isTerminal then (j, true)
  else ({ j with status := .complete }, false)

/-- Modelled from the spec: `markFailed(id, reason)` (§4.1) at the job
level — a no-op-with-warning on an already-terminal job. -/
def Job.markFailed (j : Job) (reason : String) : Job × Bool :=
  if j.status.isTerminal then (j, true)
  else ({ j with status := .failed }, false)

/-- Errors of the Event Channel (spec §4.2, §7). -/
inductive ChanError where
  | ChannelClosed
  | AlreadySubscribed
  deriving DecidableEq, Repr

/-- Modelled from the spec: the per-job Event Channel state (§4.2) of the
missing backend — an ordered backing buffer of every published event, the
count of buffer entries already delivered to the subscriber, whether a
subscriber is attached, and whether the channel has been closed. -/
structure Channel where
  buffer : List Event
  delivered : Nat
  subscribed : Bool
  closed : Bool
  deriving DecidableEq, Repr

/-- The fresh channel created at job-creation time. -/
def Channel.init : Channel :=
  { buffer := [], delivered := 0, subscribed := false, closed := false }

/-- Modelled from the spec: `publish(event)` (§4.2) — appends to the
ordered buffer, delivers immediately when a subscriber is attached, and
fails with `ChannelClosed` after `close()`. -/
def Channel.publish (ch : Channel) (e : Event) : Except ChanError Channel :=
  if ch.closed then .error .ChannelClosed
  else .ok { ch with
    buffer := ch.buffer ++ [e],
    delivered := if ch.subscribed then ch.delivered + 1 else ch.delivered }

/-- Modelled from the spec: `subscribe()` (§4.2) — attaches the sole
reader and yields every buffered event not yet delivered; fails with
`AlreadySubscribed` when a subscriber is already attached.  Attaching
after `close()` still drains the buffer (§4.2 `close()`, §8 late-attach
property). -/
def Channel.subscribe (ch : Channel) :
    Except ChanError (Channel × List Event) :=
  if ch.subscribed then .error .AlreadySubscribed
  else .ok ({ ch with subscribed := true, delivered := ch.buffer.length },
            ch.buffer.drop ch.delivered)

/-- Modelled from the spec: `close()` (§4.2) — marks the channel
terminal; the buffer is kept so a late subscriber can still drain it. -/
def Channel.close (ch : Channel) : Channel :=
  { ch with closed := true }

/-- Modelled from the spec: one channel operation of the missing backend's
producer/consumer interleaving (§5: publish is serialized against
subscribe/delivery, so a history is a sequence of atomic operations). -/
inductive ChanOp where
  | publish (e : Event)
  | subscribe
  | close
  deriving Repr

/-- Modelled from the spec: one step of a channel history (§4.2, §5) — the
state is the channel paired with the list of events the (single)
subscriber has received so far.  A rejected operation (`ChannelClosed`,
`AlreadySubscribed`) leaves the state unchanged. -/
def stepOp : Channel × List Event → ChanOp → Channel × List Event
  | (ch, recv), .publish e =>
    match ch.publish e with
    | .ok ch' => (ch', if ch.subscribed then recv ++ [e] else recv)
    | .error _ => (ch, recv)
  | (ch, recv), .subscribe =>
    match ch.subscribe with
    | .ok (ch', evs) => (ch', recv ++ evs)
    | .error _ => (ch, recv)
  | (ch, recv), .close => (ch.close, recv)

/-- Run a whole interleaved history from the fresh channel. -/
def runOps (ops : List ChanOp) : Channel × List Event :=
  ops.foldl stepOp (Channel.init, [])

/-- Channel delivery invariant: the received sequence is exactly the
delivered initial segment of the published buffer, and an attached
subscriber is always fully caught up. -/
def ChanInv (ch : Channel) (recv : List Event) : Prop :=
  recv = ch.buffer.take ch.delivered ∧
  ch.delivered ≤ ch.buffer.length ∧
  (ch.subscribed = true → ch.delivered = ch.buffer.length)

/-- Publish a batch of events in order (producer side, no subscriber
interaction modelled here). -/
def publishAll (ch : Channel) (evs : List Event) : Channel :=
  evs.foldl (fun c e =>
    match c.publish e with
    | .ok c' => c'
    | .error _ => c) ch

/-- Modelled from the spec: the channel as the Workflow Engine leaves it
when the run finished before anyone attached — all events published in
order, then `close()` (§4.2, §8 late-attach property). -/
def engineRunChannel (evs : List Event) : Channel :=
  (publishAll Channel.init evs).close

/-- A planned task (spec §4.3: the PLANNING stage outputs a task list;
each task yields `TASK_ASSIGNED`, zero-or-more `TASK_UPDATE`, and
`TASK_DONE`). -/
structure Task where
  name : String
  updates : Nat
  deriving DecidableEq, Repr

/-- A stage executor (spec §9 design note): given a stage's event type and
the prompt, produce a detail string or fail with a human-readable
reason. -/
def StageExecutor : Type := EventType → String → Except String String

/-- Fixed per-event-type detail template used in demo mode (spec §4.4;
README's example details).  The templates are deployment text; only their
determinism matters. -/
def demoTemplate : EventType → String
  | .ROUTED => "Query routed to Knowledge Agent: "
  | .CLASSIFIED => "Query complexity classified: "
  | .WORKFLOW_PLANNED => "Multi-agent plan created: "
  | .TASK_ASSIGNED => "Task assigned to specialist: "
  | .TASK_UPDATE => "Task progress update: "
  | .TASK_DONE => "Task completed: "
  | .COMPOSE_START => "Composing final answer: "
  | .COMPOSE_DONE => "Composition complete: "
  | .FINAL => "Final answer ready: "
  | .COMPLETE => "Workflow finished"
  | .FAILURE => "Workflow failed"

/-- Modelled from the spec: demo-mode detail text (§4.4) — produced
deterministically from the prompt and a fixed template per event type. -/
def demoDetail (t : EventType) (prompt : String) : String :=
  match t with
  | .COMPLETE => demoTemplate .COMPLETE
  | .FAILURE => demoTemplate .FAILURE
  | _ => demoTemplate t ++ prompt

/-- Modelled from the spec: the demo-mode stage executor (§4.4) — never
consults any external capability and never fails. -/
def demoExecutor : StageExecutor :=
  fun t prompt => .ok (demoDetail t prompt)

/-- Modelled from the spec: the demo-mode task plan (§4.3, §8 example) —
a single deterministic task with no intermediate updates, as in the
example run `TASK_ASSIGNED → TASK_DONE`. -/
def demoPlan (prompt : String) : List Task :=
  [{ name := "knowledge-" ++ prompt.take 12, updates := 0 }]

/-- Modelled from the spec: the canonical stage order of one run of the
missing backend's Workflow Engine (§4.3 transition table): ROUTED,
CLASSIFIED, WORKFLOW_PLANNED, then per planned task
TASK_ASSIGNED, its TASK_UPDATEs, TASK_DONE, then COMPOSE_START,
COMPOSE_DONE, FINAL.  The COMPLETE meta-event is appended by the engine
after the last stage. -/
def stageSeq (plan : List Task) : List EventType :=
  [.ROUTED, .CLASSIFIED, .WORKFLOW_PLANNED]
    ++ plan.flatMap (fun t =>
        [.TASK_ASSIGNED] ++ List.replicate t.updates .TASK_UPDATE
          ++ [.TASK_DONE])
    ++ [.COMPOSE_START, .COMPOSE_DONE, .FINAL]

/-- Modelled from the spec: the Workflow Engine loop (§4.3, §7) — run the
stages in order through the executor; on the first stage failure emit a
single failure event carrying the reason and finish `failed`; after the
last stage emit the `COMPLETE` meta-event and finish `complete`. -/
def runStages (exec : StageExecutor) (prompt : String) :
    List EventType → List (EventType × String) × Status
  | [] => ([(.COMPLETE, demoTemplate .COMPLETE)], .complete)
  | t :: rest =>
    match exec t prompt with
    | .ok d =>
      let r := runStages exec prompt rest
      ((t, d) :: r.1, r.2)
    | .error reason => ([(.FAILURE, reason)], .failed)

/-- The task plan the engine iterates: in demo mode the deterministic demo
plan, in live mode the plan produced by the external planning capability
(a parameter of the model). -/
def effPlan (m : Mode) (livePlan : List Task) (prompt : String) : List Task :=
  match m with
  | .demo => demoPlan prompt
  | .live => livePlan

/-- The stage executor the engine uses: the demo executor in demo mode,
the external capability in live mode (spec §9: capability-polymorphism
selected once at job creation). -/
def effExec (m : Mode) (liveExec : StageExecutor) : StageExecutor :=
  match m with
  | .demo => demoExecutor
  | .live => liveExec

/-- Modelled from the spec: one whole Workflow Engine run (§4.3) — the
emitted (type, detail) sequence and the terminal status. -/
def runJob (m : Mode) (liveExec : StageExecutor) (livePlan : List Task)
    (prompt : String) : List (EventType × String) × Status :=
  runStages (effExec m liveExec) prompt (stageSeq (effPlan m livePlan prompt))

/-- One item of a job's run trace: an event emission or a registry status
transition. -/
inductive TraceItem where
  | emit (t : EventType) (d : String)
  | mark (s : Status)
  deriving DecidableEq, Repr

/-- Whether a trace item is an event emission. -/
def TraceItem.isEmit : TraceItem → Bool
  | .emit _ _ => true
  | _ => false

/-- Whether a trace item marks a terminal status. -/
def TraceItem.isTerminalMark : TraceItem → Bool
  | .mark s => s.isTerminal
  | _ => false

/-- Modelled from the spec: the observable trace of one job run (§4.3,
§5) — the engine marks the job running, emits its events, and calls the
terminal-status setter exactly once after it stops producing events. -/
def jobTrace (m : Mode) (liveExec : StageExecutor) (livePlan : List Task)
    (prompt : String) : List TraceItem :=
  let r := runJob m liveExec livePlan prompt
  TraceItem.mark .running ::
    (r.1.map (fun p => TraceItem.emit p.1 p.2) ++ [TraceItem.mark r.2])

/-- Wrap the engine's (type, detail) pairs into full events for job
`jobId`, with timestamps increasing from `base` (spec §3: timestamps are
monotonically non-decreasing within a job). -/
def mkEvents (jobId base : Nat) (l : List (EventType × String)) : List Event :=
  l.enum.map (fun p => { type := p.2.1, detail := p.2.2,
                         timestamp := base + p.1, jobId := jobId })

/-- What a subscriber attached immediately after job creation receives:
the channel history is subscribe first, then every engine publish, then
close (spec §8 first property). -/
def subscriberView (evs : List Event) : List Event :=
  (runOps (ChanOp.subscribe :: (evs.map ChanOp.publish ++ [ChanOp.close]))).2

/-- Modelled from the spec: `create` followed immediately by `subscribe`
(§8) — validate and create the job on a fresh registry, run the Workflow
Engine in the job's mode, and return the event sequence the immediately
attached subscriber observes together with the job's terminal status. -/
def createSubscribeRun (prompt : String) (c : Credentials)
    (liveExec : StageExecutor) (livePlan : List Task) (now : Nat) :
    Except RegError (List Event × Status) :=
  match Registry.init.create prompt c now with
  | .error e => .error e
  | .ok (_, j) =>
    let r := runJob j.mode liveExec livePlan prompt
    .ok (subscriberView (mkEvents j.id j.createdAt r.1), r.2)

/-- State of the playground page relevant to submission
(`web/app/page.tsx`): the prompt text area and the `isRunning` flag. -/
structure PageState where
  prompt : String
  isRunning : Bool
  deriving DecidableEq, Repr

/-- JavaScript `String.prototype.trim`: remove whitespace from both ends of
the string. -/
def jsTrim (s : String) : String :=
  String.mk
    (((s.data.dropWhile Char.isWhitespace).reverse.dropWhile
        Char.isWhitespace).reverse)

/-- JavaScript falsiness of `prompt.trim()` (`web/app/page.tsx` line 43):
the trimmed prompt is the empty string. -/
def blankPrompt (prompt : String) : Bool :=
  (jsTrim prompt).data.isEmpty

/-- The `handleSubmit` handler of `web/app/page.tsx` (lines 41–51): if the
trimmed prompt is empty it returns immediately; otherwise it sets
`isRunning` and initiates the submission.  The second component records
whether a submission was initiated. -/
def handleSubmit (s : PageState) : PageState × Bool :=
  if blankPrompt s.prompt then (s, false)
  else ({ s with isRunning := true }, true)

/-- The `disabled` condition of the submit button in `web/app/page.tsx`
(line 72): `isRunning || !prompt.trim()`. -/
def submitDisabled (s : PageState) : Bool :=
  s.isRunning || blankPrompt s.prompt

theorem chanInv_init : ChanInv Channel.init [] := by
  refine ⟨rfl, by simp [Channel.init], fun h => by simp [Channel.init] at h⟩

theorem chanInv_step (ch : Channel) (recv : List Event) (op : ChanOp)
    (h : ChanInv ch recv) :
    ChanInv (stepOp (ch, recv) op).1 (stepOp (ch, recv) op).2 := by
  obtain ⟨h1, h2, h3⟩ := h
  cases op with
  | publish e =>
    by_cases hc : ch.closed = true
    · have hstep : stepOp (ch, recv) (.publish e) = (ch, recv) := by
        simp [stepOp, Channel.publish, hc]
      rw [hstep]
      exact ⟨h1, h2, h3⟩
    · by_cases hs : ch.subscribed = true
      · have hd : ch.delivered = ch.buffer.length := h3 hs
        have hstep : stepOp (ch, recv) (.publish e) =
            ({ ch with buffer := ch.buffer ++ [e],
                       delivered := ch.delivered + 1 }, recv ++ [e]) := by
          simp [stepOp, Channel.publish, hc, hs]
        rw [hstep]
        refine ⟨?_, ?_, fun _ => ?_⟩
        · show recv ++ [e] = (ch.buffer ++ [e]).take (ch.delivered + 1)
          rw [h1, hd, List.take_length,
            show ch.buffer.length + 1 = (ch.buffer ++ [e]).length by simp,
            List.take_length]
        · show ch.delivered + 1 ≤ (ch.buffer ++ [e]).length
          simp only [List.length_append, List.length_cons, List.length_nil]
          omega
        · show ch.delivered + 1 = (ch.buffer ++ [e]).length
          simp [hd]
      · have hstep : stepOp (ch, recv) (.publish e) =
            ({ ch with buffer := ch.buffer ++ [e] }, recv) := by
          simp [stepOp, Channel.publish, hc, hs]
        rw [hstep]
        refine ⟨?_, ?_, fun hss => ?_⟩
        · show recv = (ch.buffer ++ [e]).take ch.delivered
          rw [List.take_append_of_le_length h2]
          exact h1
        · show ch.delivered ≤ (ch.buffer ++ [e]).length
          simp only [List.length_append, List.length_cons, List.length_nil]
          omega
        · exact absurd hss hs
  | subscribe =>
    by_cases hs : ch.subscribed = true
    · have hstep : stepOp (ch, recv) .subscribe = (ch, recv) := by
        simp [stepOp, Channel.subscribe, hs]
      rw [hstep]
      exact ⟨h1, h2, h3⟩
    · have hstep : stepOp (ch, recv) .subscribe =
          ({ ch with subscribed := true, delivered := ch.buffer.length },
           recv ++ ch.buffer.drop ch.delivered) := by
        simp [stepOp, Channel.subscribe, hs]
      rw [hstep]
      refine ⟨?_, le_refl _, fun _ => rfl⟩
      show recv ++ ch.buffer.drop ch.delivered =
        ch.buffer.take ch.buffer.length
      rw [h1, List.take_length, List.take_append_drop]
  | close =>
    have hstep : stepOp (ch, recv) .close = (ch.close, recv) := rfl
    rw [hstep]
    exact ⟨h1, h2, h3⟩

theorem chanInv_foldl (ops : List ChanOp) (ch : Channel) (recv : List Event)
    (h : ChanInv ch recv) :
    ChanInv (ops.foldl stepOp (ch, recv)).1 (ops.foldl stepOp (ch, recv)).2 := by
  induction ops generalizing ch recv with
  | nil => simpa using h
  | cons op rest ih =>
    simp only [List.foldl_cons]
    have hstep := chanInv_step ch recv op h
    have := ih (stepOp (ch, recv) op).1 (stepOp (ch, recv) op).2 hstep
    simpa using this

/-- Claim C3: for every interleaved history of publish, subscribe and close
operations on a job's channel, the subscriber-received sequence is a prefix
of the published sequence (no drop, no duplicate, no reorder), and whenever
the subscriber is attached it has received exactly the published
sequence. -/
theorem c3_per_job_total_order (ops : List ChanOp) :
    (runOps ops).2 <+: (runOps ops).1.buffer ∧
    ((runOps ops).1.subscribed = true →
      (runOps ops).2 = (runOps ops).1.buffer) := by
  have h := chanInv_foldl ops Channel.init [] chanInv_init
  obtain ⟨h1, _h2, h3⟩ := h
  constructor
  · rw [show runOps ops = ops.foldl stepOp (Channel.init, []) from rfl] at *
    rw [h1]
    exact List.take_prefix _ _
  · intro hs
    rw [show runOps ops = ops.foldl stepOp (Channel.init, []) from rfl] at *
    rw [h1, h3 hs, List.take_length]

theorem c3_witness :
    (runOps [ChanOp.subscribe]).2 <+: (runOps [ChanOp.subscribe]).1.buffer ∧
    ((runOps [ChanOp.subscribe]).1.subscribed = true →
      (runOps [ChanOp.subscribe]).2 = (runOps [ChanOp.subscribe]).1.buffer) :=
  c3_per_job_total_order [ChanOp.subscribe]

theorem publishAll_fresh (evs B : List Event) :
    publishAll
      { buffer := B, delivered := 0, subscribed := false, closed := false }
      evs
      = { buffer := B ++ evs, delivered := 0, subscribed := false,
          closed := false } := by
  induction evs generalizing B with
  | nil => simp [publishAll]
  | cons e rest ih =>
    simp only [publishAll, List.foldl_cons] at ih ⊢
    have hstep :
        (match Channel.publish
            { buffer := B, delivered := 0, subscribed := false,
              closed := false } e with
          | .ok c' => c'
          | .error _ =>
            { buffer := B, delivered := 0, subscribed := false,
              closed := false }) =
        { buffer := B ++ [e], delivered := 0, subscribed := false,
          closed := false } := by
      simp [Channel.publish]
    rw [hstep, ih (B ++ [e])]
    simp

/-- Claim C5: for a job whose engine run has already finished (all events
published, channel closed), a subscriber attaching afterwards still
receives the full buffered event sequence in publish order. -/
theorem c5_late_attach (evs : List Event) :
    (engineRunChannel evs).subscribe =
      .ok ({ buffer := evs, delivered := evs.length, subscribed := true,
             closed := true }, evs) := by
  have hpub : publishAll Channel.init evs =
      { buffer := evs, delivered := 0, subscribed := false,
        closed := false } := by
    have := publishAll_fresh evs []
    simpa [Channel.init] using this
  unfold engineRunChannel
  rw [hpub]
  simp [Channel.close, Channel.subscribe]

/-- Claim C6: while a subscriber is attached, a second subscribe attempt
fails with AlreadySubscribed and leaves both the channel and the first
subscriber's received sequence unchanged. -/
theorem c6_already_subscribed (ch : Channel) (recv : List Event)
    (h : ch.subscribed = true) :
    ch.subscribe = .error .AlreadySubscribed ∧
    stepOp (ch, recv) .subscribe = (ch, recv) := by
  constructor
  · simp [Channel.subscribe, h]
  · simp [stepOp, Channel.subscribe, h]

theorem c6_witness :
    ({ buffer := [], delivered := 0, subscribed := true,
       closed := false } : Channel).subscribe =
        .error .AlreadySubscribed ∧
    stepOp ({ buffer := [], delivered := 0, subscribed := true,
              closed := false }, ([] : List Event)) .subscribe =
      ({ buffer := [], delivered := 0, subscribed := true,
         closed := false }, []) :=
  c6_already_subscribed _ _ rfl

/-- Claim C4: the job status is monotonic over pending < running < terminal
under each of markRunning, markComplete and markFailed, and each of them is
a no-op with a warning on an already-terminal job. -/
theorem c4_status_monotone (j : Job) (reason : String) :
    statusRank j.status ≤ statusRank j.markRunning.1.status ∧
    statusRank j.status ≤ statusRank j.markComplete.1.status ∧
    statusRank j.status ≤ statusRank (j.markFailed reason).1.status ∧
    (j.status.isTerminal = true →
      j.markRunning = (j, true) ∧ j.markComplete = (j, true) ∧
      j.markFailed reason = (j, true)) := by
  cases hs : j.status <;>
    simp [Job.markRunning, Job.markComplete, Job.markFailed,
      Status.isTerminal, hs, statusRank]

theorem c4_witness :
    Status.isTerminal .complete = true ∧
    ((⟨0, "p", .demo, .complete, 0⟩ : Job).markRunning =
      (⟨0, "p", .demo, .complete, 0⟩, true) ∧
     (⟨0, "p", .demo, .complete, 0⟩ : Job).markComplete =
      (⟨0, "p", .demo, .complete, 0⟩, true) ∧
     (⟨0, "p", .demo, .complete, 0⟩ : Job).markFailed ("boom") =
      (⟨0, "p", .demo, .complete, 0⟩, true)) :=
  ⟨rfl, (c4_status_monotone (⟨0, "p", .demo, .complete, 0⟩ : Job)
    ("boom")).2.2.2 rfl⟩

/-- Claim C7: an entry call whose prompt is empty (or longer than the
configured maximum) fails with InvalidInput, creates no job, and leaves the
registry contents — in particular its size — unchanged. -/
theorem c7_invalid_input (r : Registry) (c : Credentials) (prompt : String)
    (now : Nat) (h : prompt.length = 0 ∨ maxPromptLen < prompt.length) :
    entryCall r prompt c now = (r, .error .InvalidInput) ∧
    (entryCall r prompt c now).1.jobs.length = r.jobs.length := by
  have hcreate : r.create prompt c now = .error .InvalidInput := by
    unfold Registry.create
    rw [if_pos h]
  constructor
  · unfold entryCall
    rw [hcreate]
  · unfold entryCall
    rw [hcreate]

theorem c7_witness :
    entryCall Registry.init ("") (⟨none, none, none⟩ : Credentials) 0 =
      (Registry.init, .error .InvalidInput) ∧
    (entryCall Registry.init ("")
        (⟨none, none, none⟩ : Credentials) 0).1.jobs.length =
      Registry.init.jobs.length :=
  c7_invalid_input Registry.init (⟨none, none, none⟩ : Credentials)
    ("") 0 (Or.inl (by decide))

/-- Claim C8: the Mode Selector is a pure function of the supplied
credentials — live exactly when at least one usable credential is present,
demo otherwise; the mode is fixed at job creation by the selector and no
status transition ever changes it. -/
theorem c8_mode_selector :
    (∀ c : Credentials,
      (selectMode c = .live ↔ c.anyUsable = true) ∧
      (selectMode c = .demo ↔ c.anyUsable = false)) ∧
    (∀ (r r' : Registry) (prompt : String) (c : Credentials) (now : Nat)
        (j : Job), r.create prompt c now = .ok (r', j) →
      j.mode = selectMode c) ∧
    (∀ (j : Job) (reason : String),
      j.markRunning.1.mode = j.mode ∧ j.markComplete.1.mode = j.mode ∧
      (j.markFailed reason).1.mode = j.mode) := by
  refine ⟨fun c => ?_, fun r r' prompt c now j hok => ?_, fun j reason => ?_⟩
  · cases hu : c.anyUsable <;> simp [selectMode, hu]
  · unfold Registry.create at hok
    by_cases hv : prompt.length = 0 ∨ maxPromptLen < prompt.length
    · rw [if_pos hv] at hok
      exact absurd hok (by simp)
    · rw [if_neg hv] at hok
      simp only [Except.ok.injEq, Prod.mk.injEq] at hok
      rw [← hok.2]
  · by_cases ht : j.status.isTerminal = true <;>
      simp [Job.markRunning, Job.markComplete, Job.markFailed, ht]

theorem c8_witness :
    (selectMode (⟨some "sk-1", none, none⟩ : Credentials) = .live ↔
      Credentials.anyUsable (⟨some "sk-1", none, none⟩ : Credentials)
        = true) ∧
    (⟨0, "hi", .live, .pending, 7⟩ : Job).mode =
      selectMode (⟨some "sk-1", none, none⟩ : Credentials) :=
  ⟨(c8_mode_selector.1 (⟨some "sk-1", none, none⟩ : Credentials)).1,
   c8_mode_selector.2.1 Registry.init
     (⟨[(0, ⟨0, "hi", .live, .pending, 7⟩)], 1⟩ : Registry)
     ("hi") (⟨some "sk-1", none, none⟩ : Credentials) 7
     (⟨0, "hi", .live, .pending, 7⟩ : Job)
     rfl⟩

/-- Claim C10: for every prompt whose trimmed form is empty, handleSubmit
returns immediately without setting isRunning and without initiating a
submission, and the submit button is disabled. -/
theorem c10_blank_prompt_guard (s : PageState)
    (h : blankPrompt s.prompt = true) :
    handleSubmit s = (s, false) ∧ submitDisabled s = true := by
  constructor
  · simp [handleSubmit, h]
  · simp [submitDisabled, h]

theorem runStages_shape (exec : StageExecutor) (prompt : String)
    (stages : List EventType) :
    ((runStages exec prompt stages).2 = .complete ∧
       (runStages exec prompt stages).1.map Prod.fst =
         stages ++ [.COMPLETE]) ∨
    ((runStages exec prompt stages).2 = .failed ∧
       ∃ k, (runStages exec prompt stages).1.map Prod.fst =
         stages.take k ++ [.FAILURE]) := by
  induction stages with
  | nil => exact Or.inl ⟨rfl, rfl⟩
  | cons t rest ih =>
    cases hex : exec t prompt with
    | ok d =>
      simp only [runStages, hex]
      cases ih with
      | inl h =>
        refine Or.inl ⟨h.1, ?_⟩
        simp [h.2]
      | inr h =>
        obtain ⟨hst, k, hk⟩ := h
        refine Or.inr ⟨hst, k + 1, ?_⟩
        simp [hk, List.take_succ_cons]
    | error reason =>
      simp only [runStages, hex]
      refine Or.inr ⟨?_, 0, ?_⟩ <;> simp

theorem runStages_demoExec (prompt : String) (stages : List EventType) :
    runStages demoExecutor prompt stages =
      (stages.map (fun t => (t, demoDetail t prompt)) ++
         [(.COMPLETE, demoTemplate .COMPLETE)], .complete) := by
  induction stages with
  | nil => rfl
  | cons t rest ih =>
    simp only [runStages, demoExecutor, ih, List.map_cons, List.cons_append]

theorem mkEvents_types (jobId base : Nat) (l : List (EventType × String)) :
    (mkEvents jobId base l).map Event.type = l.map Prod.fst := by
  unfold mkEvents
  rw [List.map_map]
  have hfun : (Event.type ∘ fun p : Nat × (EventType × String) =>
      ({ type := p.2.1, detail := p.2.2, timestamp := base + p.1,
         jobId := jobId } : Event)) =
      (Prod.fst ∘ Prod.snd) := rfl
  rw [hfun, show (Prod.fst ∘ Prod.snd :
      Nat × (EventType × String) → EventType) =
      (Prod.fst ∘ (Prod.snd : Nat × (EventType × String) →
        EventType × String)) from rfl]
  rw [← List.map_map, List.enum_map_snd]

theorem foldl_publish_attached (evs : List Event) (B R : List Event) :
    (evs.map ChanOp.publish).foldl stepOp
      ({ buffer := B, delivered := B.length, subscribed := true,
         closed := false }, R)
      = ({ buffer := B ++ evs, delivered := (B ++ evs).length,
           subscribed := true, closed := false }, R ++ evs) := by
  induction evs generalizing B R with
  | nil => simp
  | cons e rest ih =>
    simp only [List.map_cons, List.foldl_cons]
    have hstep : stepOp
        ({ buffer := B, delivered := B.length, subscribed := true,
           closed := false }, R) (.publish e) =
        ({ buffer := B ++ [e], delivered := (B ++ [e]).length,
           subscribed := true, closed := false }, R ++ [e]) := by
      simp [stepOp, Channel.publish]
    rw [hstep, ih (B ++ [e]) (R ++ [e])]
    simp

theorem subscriberView_eq (evs : List Event) : subscriberView evs = evs := by
  unfold subscriberView runOps
  simp only [List.foldl_cons]
  have hsub : stepOp (Channel.init, []) .subscribe =
      ({ buffer := [], delivered := List.length ([] : List Event),
         subscribed := true, closed := false }, []) := by
    simp [stepOp, Channel.subscribe, Channel.init]
  rw [hsub, List.foldl_append, foldl_publish_attached evs [] []]
  simp [stepOp, Channel.close]

theorem lastMark_aux (E : List TraceItem) (st : Status)
    (l₁ l₂ : List TraceItem) (x : TraceItem)
    (hE : ∀ y ∈ E, y.isTerminalMark = false)
    (heq : E ++ [TraceItem.mark st] = l₁ ++ x :: l₂)
    (hx : x.isTerminalMark = true) : l₂ = [] := by
  induction E generalizing l₁ with
  | nil =>
    cases l₁ with
    | nil =>
      simp only [List.nil_append, List.cons.injEq] at heq
      exact heq.2.symm
    | cons a l₁' =>
      simp only [List.nil_append, List.cons_append, List.cons.injEq] at heq
      exact absurd heq.2.symm (by simp)
  | cons e E' ih =>
    cases l₁ with
    | nil =>
      simp only [List.cons_append, List.nil_append, List.cons.injEq] at heq
      rw [← heq.1] at hx
      exact absurd hx (by simp [hE e (List.mem_cons_self e E')])
    | cons a l₁' =>
      simp only [List.cons_append, List.cons.injEq] at heq
      exact ih l₁' (fun y hy => hE y (List.mem_cons_of_mem e hy)) heq.2

/-- Claim C1: for every valid prompt, create followed immediately by
subscribe yields an event sequence whose type sequence follows the
canonical stage order — on success exactly the canonical stages followed by
COMPLETE (so FINAL is second-to-last and COMPLETE last), on failure a
prefix of the canonical stages followed by a single failure event. -/
theorem c1_event_sequence (prompt : String) (c : Credentials)
    (liveExec : StageExecutor) (livePlan : List Task) (now : Nat)
    (h1 : prompt.length ≠ 0) (h2 : prompt.length ≤ maxPromptLen) :
    ∃ (l : List Event) (st : Status),
      createSubscribeRun prompt c liveExec livePlan now = .ok (l, st) ∧
      ((st = .complete ∧
          l.map Event.type =
            stageSeq (effPlan (selectMode c) livePlan prompt)
              ++ [.COMPLETE] ∧
          (∃ pre, l.map Event.type = pre ++ [.FINAL, .COMPLETE])) ∨
       (st = .failed ∧
          ∃ k, l.map Event.type =
            (stageSeq (effPlan (selectMode c) livePlan prompt)).take k
              ++ [.FAILURE])) := by
  have hval : ¬(prompt.length = 0 ∨ maxPromptLen < prompt.length) := by
    intro h
    exact h.elim h1 (fun hgt => absurd h2 (Nat.not_le.mpr hgt))
  have hcreate : Registry.init.create prompt c now =
      .ok ({ jobs := [(0, ⟨0, prompt, selectMode c, .pending, now⟩)],
             nextId := 1 },
           (⟨0, prompt, selectMode c, .pending, now⟩ : Job)) := by
    unfold Registry.create
    rw [if_neg hval]
    rfl
  have hrun : createSubscribeRun prompt c liveExec livePlan now =
      .ok (subscriberView (mkEvents 0 now
             (runJob (selectMode c) liveExec livePlan prompt).1),
           (runJob (selectMode c) liveExec livePlan prompt).2) := by
    unfold createSubscribeRun
    rw [hcreate]
  refine ⟨_, _, hrun, ?_⟩
  rw [subscriberView_eq, mkEvents_types]
  have hshape := runStages_shape (effExec (selectMode c) liveExec) prompt
    (stageSeq (effPlan (selectMode c) livePlan prompt))
  unfold runJob
  cases hshape with
  | inl h =>
    refine Or.inl ⟨h.1, h.2, ?_⟩
    refine ⟨[.ROUTED, .CLASSIFIED, .WORKFLOW_PLANNED] ++
       (effPlan (selectMode c) livePlan prompt).flatMap (fun t =>
          [.TASK_ASSIGNED] ++ List.replicate t.updates .TASK_UPDATE
            ++ [.TASK_DONE]) ++ [.COMPOSE_START, .COMPOSE_DONE], ?_⟩
    rw [h.2]
    simp [stageSeq]
  | inr h =>
    exact Or.inr h

theorem c1_witness :
    ∃ (l : List Event) (st : Status),
      createSubscribeRun ("Explain Bitcoin halving in simple terms")
        (⟨none, none, none⟩ : Credentials) demoExecutor [] 0 =
        .ok (l, st) ∧
      ((st = .complete ∧
          l.map Event.type =
            stageSeq (effPlan
                (selectMode (⟨none, none, none⟩ : Credentials)) []
                ("Explain Bitcoin halving in simple terms"))
              ++ [.COMPLETE] ∧
          (∃ pre, l.map Event.type = pre ++ [.FINAL, .COMPLETE])) ∨
       (st = .failed ∧
          ∃ k, l.map Event.type =
            (stageSeq (effPlan
                (selectMode (⟨none, none, none⟩ : Credentials)) []
                ("Explain Bitcoin halving in simple terms"))).take k
              ++ [.FAILURE])) :=
  c1_event_sequence ("Explain Bitcoin halving in simple terms")
    (⟨none, none, none⟩ : Credentials) demoExecutor [] 0
    (by decide) (by decide)

/-- Claim C2: every engine run ends in a terminal status; the status is
complete exactly when the last emitted event is COMPLETE and failed exactly
when it is the failure event, and in the run trace nothing at all — in
particular no event emission — follows a terminal status mark. -/
theorem c2_terminal_closing (m : Mode) (liveExec : StageExecutor)
    (livePlan : List Task) (prompt : String) :
    (runJob m liveExec livePlan prompt).2.isTerminal = true ∧
    ((runJob m liveExec livePlan prompt).2 = .complete ↔
      ((runJob m liveExec livePlan prompt).1.map Prod.fst).getLast? =
        some .COMPLETE) ∧
    ((runJob m liveExec livePlan prompt).2 = .failed ↔
      ((runJob m liveExec livePlan prompt).1.map Prod.fst).getLast? =
        some .FAILURE) ∧
    (∀ (l₁ l₂ : List TraceItem) (x : TraceItem),
      jobTrace m liveExec livePlan prompt = l₁ ++ x :: l₂ →
      x.isTerminalMark = true → l₂ = []) := by
  have hshape := runStages_shape (effExec m liveExec) prompt
    (stageSeq (effPlan m livePlan prompt))
  refine ⟨?_, ?_, ?_, ?_⟩
  · unfold runJob
    cases hshape with
    | inl h => rw [h.1]; rfl
    | inr h => rw [h.1]; rfl
  · unfold runJob
    cases hshape with
    | inl h =>
      rw [h.1, h.2, List.getLast?_concat]
      simp
    | inr h =>
      obtain ⟨hst, k, hk⟩ := h
      rw [hst, hk, List.getLast?_concat]
      simp
  · unfold runJob
    cases hshape with
    | inl h =>
      rw [h.1, h.2, List.getLast?_concat]
      simp
    | inr h =>
      obtain ⟨hst, k, hk⟩ := h
      rw [hst, hk, List.getLast?_concat]
      simp
  · intro l₁ l₂ x heq hx
    unfold jobTrace at heq
    cases l₁ with
    | nil =>
      simp only [List.nil_append, List.cons.injEq] at heq
      rw [← heq.1] at hx
      exact absurd hx (by simp [TraceItem.isTerminalMark, Status.isTerminal])
    | cons a l₁' =>
      simp only [List.cons_append, List.cons.injEq] at heq
      refine lastMark_aux
        ((runJob m liveExec livePlan prompt).1.map
          (fun p => TraceItem.emit p.1 p.2))
        (runJob m liveExec livePlan prompt).2 l₁' l₂ x ?_ heq.2 hx
      intro y hy
      obtain ⟨p, _, hp⟩ := List.mem_map.mp hy
      rw [← hp]
      rfl

theorem c2_witness :
    (runJob .demo demoExecutor [] ("x")).2.isTerminal = true ∧
    ((runJob .demo demoExecutor [] ("x")).2 = .complete ↔
      ((runJob .demo demoExecutor [] ("x")).1.map Prod.fst).getLast? =
        some .COMPLETE) ∧
    (([] : List TraceItem) = []) :=
  ⟨(c2_terminal_closing .demo demoExecutor [] ("x")).1,
   (c2_terminal_closing .demo demoExecutor [] ("x")).2.1,
   (c2_terminal_closing .demo demoExecutor [] ("x")).2.2.2
     [.mark .running, .emit .ROUTED (demoDetail .ROUTED ("x")),
      .emit .CLASSIFIED (demoDetail .CLASSIFIED ("x")),
      .emit .WORKFLOW_PLANNED (demoDetail .WORKFLOW_PLANNED ("x")),
      .emit .TASK_ASSIGNED (demoDetail .TASK_ASSIGNED ("x")),
      .emit .TASK_DONE (demoDetail .TASK_DONE ("x")),
      .emit .COMPOSE_START (demoDetail .COMPOSE_START ("x")),
      .emit .COMPOSE_DONE (demoDetail .COMPOSE_DONE ("x")),
      .emit .FINAL (demoDetail .FINAL ("x")),
      .emit .COMPLETE (demoTemplate .COMPLETE)] []
     (.mark .complete) (by decide) rfl⟩

/-- Claim C9: a demo-mode run consults no external capability — its result
is the same for every live executor and live plan —, every emitted detail
is the fixed per-event-type template applied to the prompt, and the run
never ends failed. -/
theorem c9_demo_deterministic (prompt : String)
    (e₁ e₂ : StageExecutor) (p₁ p₂ : List Task) :
    runJob .demo e₁ p₁ prompt = runJob .demo e₂ p₂ prompt ∧
    (runJob .demo e₁ p₁ prompt).2 = .complete ∧
    (runJob .demo e₁ p₁ prompt).2 ≠ .failed ∧
    (∀ ev ∈ (runJob .demo e₁ p₁ prompt).1,
      ev.2 = demoDetail ev.1 prompt) := by
  have h := runStages_demoExec prompt (stageSeq (demoPlan prompt))
  refine ⟨rfl, ?_, ?_, ?_⟩
  · show (runStages demoExecutor prompt
      (stageSeq (demoPlan prompt))).2 = .complete
    rw [h]
  · show (runStages demoExecutor prompt
      (stageSeq (demoPlan prompt))).2 ≠ .failed
    rw [h]
    simp
  · intro ev hev
    have hev' : ev ∈ (runStages demoExecutor prompt
        (stageSeq (demoPlan prompt))).1 := hev
    rw [h] at hev'
    rcases List.mem_append.mp hev' with hl | hr
    · obtain ⟨t, _, ht⟩ := List.mem_map.mp hl
      rw [← ht]
    · rw [List.mem_singleton.mp hr]
      rfl

theorem c9_witness :
    runJob .demo demoExecutor [] ("x") =
      runJob .demo demoExecutor [⟨"t", 2⟩] ("x") ∧
    (runJob .demo demoExecutor [] ("x")).2 = .complete ∧
    ((.ROUTED, demoDetail .ROUTED ("x")) : EventType × String).2 =
      demoDetail .ROUTED ("x") :=
  ⟨(c9_demo_deterministic ("x") demoExecutor demoExecutor []
      [⟨"t", 2⟩]).1,
   (c9_demo_deterministic ("x") demoExecutor demoExecutor []
      [⟨"t", 2⟩]).2.1,
   (c9_demo_deterministic ("x") demoExecutor demoExecutor []
      [⟨"t", 2⟩]).2.2.2
     ((.ROUTED, demoDetail .ROUTED ("x")) : EventType × String)
     (by decide)⟩

theorem c10_witness :
    handleSubmit (⟨"   ", false⟩ : PageState) =
      ((⟨"   ", false⟩ : PageState), false) ∧
    submitDisabled (⟨"   ", false⟩ : PageState) = true :=
  c10_blank_prompt_guard (⟨"   ", false⟩ : PageState) (by decide)

end SentientPlayground
